import Mathlib

/-!
# Pruned Chain-State & Verification Engine — verification development

The repository's only source file, `qa/rpc-tests/blockchain.py`, is the test
of a blockchain node's query and maintenance interface (`gettxoutsetinfo`,
`getutxoforkey`, `getblockheader`, `getblockchaininfo`, `verifychain`).
The engine the test exercises lives outside the repository, so the
definitions below model that engine from the specification's component
contracts (BlockIndex, UtxoSet, PruneManager, ChainVerifier, QueryService),
and the theorems settle the spec's testable properties against the model.
-/

set_option maxRecDepth 40000
set_option maxHeartbeats 2000000

/-! ## Decimal and hexadecimal presentation helpers -/

/-- The decimal digit character for `d < 10`. -/
def decDigitChar (d : Nat) : Char := Char.ofNat (48 + d)

/-- Lowercase hexadecimal digit character for `d < 16`. -/
def hexDigitChar (d : Nat) : Char :=
  if d < 10 then Char.ofNat (48 + d) else Char.ofNat (87 + d)

/-- Decimal digit list of `n` prepended to `acc`, most significant first;
`fuel` bounds the recursion depth (any `fuel ≥` the digit count of `n` is
exact). -/
def decDigitsAux : Nat → Nat → List Char → List Char
  | 0, _, acc => acc
  | fuel + 1, n, acc =>
    if n < 10 then decDigitChar n :: acc
    else decDigitsAux fuel (n / 10) (decDigitChar (n % 10) :: acc)

/-- Decimal string of a natural number (24 digits of fuel suffice for any
amount representable in the engine). -/
def natToDecString (n : Nat) : String := ⟨decDigitsAux 24 n []⟩

/-- Fixed-width hexadecimal digit list of `n` prepended to `acc`: exactly
`w` lowercase hex digits, most significant first (truncates above
`16 ^ w`). -/
def hexFixedAux : Nat → Nat → List Char → List Char
  | 0, _, acc => acc
  | w + 1, n, acc => hexFixedAux w (n / 16) (hexDigitChar (n % 16) :: acc)

/-- 64-character hexadecimal rendering of a 256-bit digest value. -/
def hex64 (n : Nat) : String := ⟨hexFixedAux 64 n []⟩

/-- Hexadecimal digit list of `n` prepended to `acc`, most significant
first, fuel-bounded like `decDigitsAux`. -/
def hexDigitsAux : Nat → Nat → List Char → List Char
  | 0, _, acc => acc
  | fuel + 1, n, acc =>
    if n < 16 then hexDigitChar n :: acc
    else hexDigitsAux fuel (n / 16) (hexDigitChar (n % 16) :: acc)

/-- Variable-width lowercase hexadecimal string of `n` (70 hex digits of
fuel cover any chainwork below `16 ^ 70`). -/
def natToHexString (n : Nat) : String := ⟨hexDigitsAux 70 n []⟩

/-- `true` on the character set the chainwork presentation may use. -/
def isHexChar (c : Char) : Bool :=
  (48 ≤ c.toNat && c.toNat ≤ 57) || (97 ≤ c.toNat && c.toNat ≤ 102)

/-- One minor unit is `10 ^ -8` of a currency unit. -/
def minorUnitsPerCoin : Nat := 100000000

/-- Left-pad a digit list with zeros to width `w`. -/
def padLeftZeros (w : Nat) (s : List Char) : List Char :=
  List.replicate (w - s.length) '0' ++ s

/-- Fixed 8-decimal presentation of an exact integer amount in minor units:
the integer quotient by `10 ^ 8`, a point, and the remainder zero-padded to
eight digits.  This is the presentation boundary of `total_amount`; the
amount itself is never floating point. -/
def formatFixed8 (minor : Nat) : String :=
  natToDecString (minor / minorUnitsPerCoin) ++ "." ++
    ⟨padLeftZeros 8 (decDigitsAux 24 (minor % minorUnitsPerCoin) [])⟩

/-- `true` when `needle` occurs as a contiguous substring of `hay`
(character-list infix). -/
def strContains (hay needle : String) : Bool :=
  hay.data.tails.any fun t => needle.data.isPrefixOf t

/-! ## Data model

Modelled from the spec: the engine itself (the node's `rpc/blockchain.cpp`
behavior) is not part of the repository, only its test is, so the data
model below follows §3 of the specification. -/

/-- Modelled from the spec: per-node retention configuration,
`mode ∈ {disabled, manual, automatic(target_bytes)}`. -/
inductive RetentionMode
  | disabled
  | manual
  | automatic (targetBytes : Nat)
deriving DecidableEq, Repr

/-- Modelled from the spec (§7): the error taxonomy of the query surface. -/
inductive RpcError
  | invalidArgument (msg : String)
  | invalidKeyEncoding (msg : String)
  | noMatchingUtxo
  | unknownBlock
  | prunedDataUnavailable
  | consensusError
deriving DecidableEq, Repr

instance {e a : Type} [DecidableEq e] [DecidableEq a] : DecidableEq (Except e a)
  | .ok x, .ok y =>
    if h : x = y then .isTrue (by rw [h])
    else .isFalse (by intro hc; cases hc; exact h rfl)
  | .ok _, .error _ => .isFalse (by intro hc; cases hc)
  | .error _, .ok _ => .isFalse (by intro hc; cases hc)
  | .error x, .error y =>
    if h : x = y then .isTrue (by rw [h])
    else .isFalse (by intro hc; cases hc; exact h rfl)

/-- Modelled from the spec: an immutable block header as kept by
BlockIndex — hash, previous hash, height, timestamp, difficulty bits,
nonce, version, merkle root and cumulative chainwork. -/
structure Header where
  hash : String
  prev : String
  height : Nat
  time : Nat
  bits : String
  nonce : Nat
  version : Nat
  merkle : String
  chainwork : Nat
deriving DecidableEq, Repr

/-- Modelled from the spec: identifier of a transaction output
(transaction id + output index).  Transaction ids are abstract
identifiers in the model. -/
structure OutRef where
  txid : Nat
  idx : Nat
deriving DecidableEq, Repr

/-- Modelled from the spec: an unspent-output record — amount in integer
minor units (never floating point), locking condition, creation height and
coinbase flag. -/
structure UtxoRecord where
  amount : Nat
  lockKey : String
  height : Nat
  coinbase : Bool
deriving DecidableEq, Repr

/-- Modelled from the spec: the authoritative UTXO set, a finite mapping
from outref to record, kept in its storage's deterministic scan order. -/
def UtxoSet := List (OutRef × UtxoRecord)

/-- Modelled from the spec: the chain state a single node holds — the best
chain's headers genesis-first in BlockIndex, the authoritative UtxoSet,
and the PruneManager's retention record (`mode`, `prune_height`, whether a
manual eviction has been triggered by an operator). -/
structure NodeState where
  chain : List Header
  utxos : List (OutRef × UtxoRecord)
  mode : RetentionMode
  pruneHeight : Nat
  manualEvictionTriggered : Bool

/-- Height of the best-chain tip (genesis has height 0). -/
def tipHeight (st : NodeState) : Nat := st.chain.length - 1

/-- Header of the best-chain tip. -/
def tipHeader (st : NodeState) : Header :=
  st.chain.getLastD ⟨hex64 0, hex64 0, 0, 0, "1e0ffff0", 0, 1, hex64 0, 0⟩

/-! ## UtxoSet summary (`gettxoutsetinfo`) -/

/-- Number of distinct transactions still holding an unspent output. -/
def utxoTxCount (us : List (OutRef × UtxoRecord)) : Nat :=
  ((us.map fun p => p.1.txid).dedup).length

/-- Exact integer sum of all unspent amounts, in minor units. -/
def utxoTotalAmount (us : List (OutRef × UtxoRecord)) : Nat :=
  (us.map fun p => p.2.amount).sum

/-- Modelled from the spec: the canonical serialization size of one
unspent-output record — a 32-byte transaction id, 4-byte output index,
8-byte amount, 2 bytes of height/coinbase metadata and a 25-byte standard
locking script, 71 bytes in all for the standard records the test mints. -/
def recordSerializedSize (_r : UtxoRecord) : Nat := 32 + 4 + 8 + 2 + 25

/-- Byte size of the canonical serialization of the whole set. -/
def utxoSerializedSize (us : List (OutRef × UtxoRecord)) : Nat :=
  (us.map fun p => recordSerializedSize p.2).sum

/-- Modelled from the spec: the incremental UTXO-set digest — a 256-bit
value folded over the (outref, record) pairs in the set's canonical order;
the hash primitive itself is an excluded collaborator, modelled by a
mixing fold reduced modulo `2 ^ 256`. -/
def utxoDigest (us : List (OutRef × UtxoRecord)) : Nat :=
  us.foldl
    (fun acc p =>
      (acc * 1000003 + p.1.txid * 8191 + p.1.idx * 127 +
        p.2.amount * 31 + p.2.height) % (2 ^ 256))
    1

/-- Result shape of the UTXO-set summary operation. -/
structure UtxoSetSummary where
  height : Nat
  bestblock : String
  transactions : Nat
  txouts : Nat
  bytes_serialized : Nat
  hash_serialized : String
  total_amount : Nat
deriving DecidableEq, Repr

/-- Modelled from the spec: `utxo_set_summary()` (`gettxoutsetinfo`)
returns `UtxoSet.summary()` plus the best block hash and height of the
single consistent snapshot it reflects. -/
def gettxoutsetinfo (st : NodeState) : UtxoSetSummary where
  height := tipHeight st
  bestblock := (tipHeader st).hash
  transactions := utxoTxCount st.utxos
  txouts := st.utxos.length
  bytes_serialized := utxoSerializedSize st.utxos
  hash_serialized := hex64 (utxoDigest st.utxos)
  total_amount := utxoTotalAmount st.utxos

/-! ## UTXO by key (`getutxoforkey`) -/

/-- Modelled from the spec: decoding private-key material and deriving the
corresponding locking key are black-box crypto collaborators; the model
takes a key encoding to be decodable exactly when it is non-empty, and
derives the locking key by tagging the decoded material. -/
def decodePrivKey (s : String) : Option String :=
  if s.isEmpty then none else some ("lock:" ++ s)

/-- Result shape of the UTXO-by-key operation. -/
structure UtxoForKeyResult where
  amount : Nat
  height : Nat
  txid : Nat
deriving DecidableEq, Repr

/-- Modelled from the spec: `utxo_by_key` — fail with `InvalidKeyEncoding`
if the input cannot be decoded as a private key; otherwise scan UtxoSet
for a locking-key match, failing with `NoMatchingUtxo` if none is found,
and returning the first match's `(amount, height, txid)` in scan order. -/
def getutxoforkey (st : NodeState) (privkey : String) :
    Except RpcError UtxoForKeyResult :=
  match decodePrivKey privkey with
  | none => .error (.invalidKeyEncoding "Invalid private key encoding")
  | some lk =>
    match st.utxos.find? fun p => p.2.lockKey == lk with
    | none => .error .noMatchingUtxo
    | some (oref, r) => .ok ⟨r.amount, r.height, oref.txid⟩

/-! ## Block header query (`getblockheader`) -/

/-- Result shape of the header query. -/
structure HeaderInfo where
  hash : String
  height : Nat
  confirmations : Int
  previousblockhash : String
  chainwork : String
  merkleroot : String
  bits : String
  time : Nat
  nonce : Nat
  version : Nat
deriving DecidableEq, Repr

/-- Modelled from the spec: `header(hash)` — fail with `UnknownBlock` if
the hash is not present in BlockIndex, else return the header fields plus
`confirmations = best_tip.height - header.height + 1` and the chainwork
hex-formatted without precision loss. -/
def getblockheader (st : NodeState) (h : String) :
    Except RpcError HeaderInfo :=
  match st.chain.find? fun hd => hd.hash == h with
  | none => .error .unknownBlock
  | some hd =>
    .ok ⟨hd.hash, hd.height, (tipHeight st : Int) - (hd.height : Int) + 1,
      hd.prev, natToHexString hd.chainwork, hd.merkle, hd.bits, hd.time,
      hd.nonce, hd.version⟩

/-- Block hash at a given height on the best chain (`getblockhash`). -/
def getblockhash (st : NodeState) (h : Nat) : Option String :=
  (st.chain.find? fun hd => hd.height == h).map fun hd => hd.hash

/-- Hash of the best-chain tip (`getbestblockhash`). -/
def getbestblockhash (st : NodeState) : String := (tipHeader st).hash

/-! ## Chain summary (`getblockchaininfo`) -/

/-- Result shape of the chain summary; pruning-related fields are present
conditionally, modelled as `Option`s. -/
structure ChainSummary where
  bestblockhash : String
  blocks : Nat
  chainwork : String
  mediantime : Nat
  pruned : Bool
  size_on_disk : Nat
  pruneheight : Option Nat
  automatic_pruning : Option Bool
  prune_target_size : Option Nat

/-- Median timestamp of the last (up to) 11 best-chain blocks. -/
def medianTimePast (st : NodeState) : Nat :=
  let ts := ((st.chain.reverse.take 11).map fun hd => hd.time).mergeSort (· ≤ ·)
  ts.getD (ts.length / 2) 0

/-- Modelled from the spec: `chain_summary()` (`getblockchaininfo`) —
best hash, height, chainwork (hex), median time, and the pruning block:
`pruned` reflects whether retention is enabled; `pruneheight` and
`automatic_pruning` are present only when retention mode is not disabled,
and `prune_target_size` only when the mode is automatic. -/
def getblockchaininfo (st : NodeState) : ChainSummary where
  bestblockhash := (tipHeader st).hash
  blocks := tipHeight st
  chainwork := natToHexString (tipHeader st).chainwork
  mediantime := medianTimePast st
  pruned := match st.mode with
    | .disabled => false
    | _ => true
  size_on_disk := (st.chain.drop st.pruneHeight).length * 32 + 1
  pruneheight := match st.mode with
    | .disabled => none
    | _ => some st.pruneHeight
  automatic_pruning := match st.mode with
    | .disabled => none
    | .manual => some false
    | .automatic _ => some true
  prune_target_size := match st.mode with
    | .automatic t => some t
    | _ => none

/-- Modelled from the spec: the startup/config collaborator's retention
option — `0` disables retention limits, `1` selects manual mode, and a
value of `mb ≥ 2` selects automatic mode with a byte budget of `mb` whole
megabytes converted to bytes internally. -/
def configRetention (pruneArg : Nat) : RetentionMode :=
  if pruneArg = 0 then .disabled
  else if pruneArg = 1 then .manual
  else .automatic (pruneArg * 1024 * 1024)

/-! ## Chain verification (`verifychain`) -/

/-- Level-0 structural check: each header in the list links to its
predecessor's hash. -/
def checkLinkage : List Header → Bool
  | [] => true
  | [_] => true
  | a :: b :: t => (b.prev == a.hash) && checkLinkage (b :: t)

/-- Modelled from the spec: the body of a verification task over the
retained range — the level-0 linkage check runs on every task; levels 1–4
superset it with checks whose collaborators (serialization, undo data,
script execution) are outside this engine, so on the model's well-formed
states they succeed whenever the data they need is retained. -/
def runVerification (st : NodeState) (startH : Nat) : Bool :=
  checkLinkage (st.chain.drop startH)

/-- Modelled from the spec: `verify_chain(checklevel, block_count)` —
preconditions `0 ≤ checklevel ≤ 4` (else `InvalidArgument` naming
checklevel, checked first) and `block_count ≥ 0` (else `InvalidArgument`
naming nblocks); then the task spans `start_height =
max(0, tip_height − block_count + 1)` clamped to the retained range, with
levels above 1 failing with `PrunedDataUnavailable` when the span needs
evicted data. -/
def verifychain (st : NodeState) (checklevel nblocks : Int) :
    Except RpcError Bool :=
  if checklevel < 0 ∨ 4 < checklevel then
    .error (.invalidArgument "Error: checklevel must be >= 0 and <= 4")
  else if nblocks < 0 then
    .error (.invalidArgument "Error: nblocks must be >= 0")
  else
    let startH := tipHeight st + 1 - nblocks.toNat
    if 2 ≤ checklevel ∧ startH < st.pruneHeight ∧ 0 < st.pruneHeight then
      .error .prunedDataUnavailable
    else
      .ok (runVerification st (max startH st.pruneHeight))

/-! ## The test scenario

The test runs against a regtest chain of 120 mined blocks, each minting
500000 units to a fresh address, on two connected nodes: node 0 started
with retention option 1 (manual) and node 1 with retention option 2200
(automatic, 2200 MB).  Later a payment of 42.001 units to a fresh key of
node 0 is confirmed by node 1 in block 121. -/

/-- Block subsidy of the scenario chain, in minor units. -/
def blockSubsidyMinor : Nat := 500000 * minorUnitsPerCoin

/-- Modelled from the spec: the scenario's block header at height `i`.
Block hashes come from the excluded hashing collaborator; the model uses
the injective 256-bit encoding `i + 1` so that each header's `prev` field
is exactly its parent's hash, with the genesis `prev` all zeroes. -/
def mkHeader (i : Nat) : Header where
  hash := hex64 (i + 1)
  prev := hex64 i
  height := i
  time := 1386325540 + 60 * i
  bits := "1e0ffff0"
  nonce := 2083236893 + i
  version := 1
  merkle := hex64 (3 * i + 1000000007)
  chainwork := (i + 1) * 4295032833

/-- The best chain of the scenario: headers of heights `0, …, n - 1`. -/
def bestChain (n : Nat) : List Header := (List.range n).map mkHeader

/-- The coinbase output minted by scenario block `i`, paying the block
subsidy to a fresh per-block locking key. -/
def coinbaseUtxo (i : Nat) : OutRef × UtxoRecord :=
  (⟨1000 + i, 0⟩, ⟨blockSubsidyMinor, "cb:" ++ natToDecString i, i, true⟩)

/-- The UTXO set after the `n` mined blocks (heights `1, …, n`): one
coinbase output per block, none spent, genesis excluded. -/
def minedUtxos (n : Nat) : List (OutRef × UtxoRecord) :=
  (List.range n).map fun j => coinbaseUtxo (j + 1)

/-- Node 0 of the test: 120 mined blocks applied on top of genesis,
retention option 1 (manual mode), no eviction triggered. -/
def node0 : NodeState where
  chain := bestChain 121
  utxos := minedUtxos 120
  mode := configRetention 1
  pruneHeight := 0
  manualEvictionTriggered := false

/-- The fresh private key of node 0 that the 42.001-unit payment pays. -/
def privKeyC3 : String := "cQfsC3FreshNodeZeroKey"

/-- Transaction id of the originating 42.001-unit payment. -/
def payTxidC3 : Nat := 987654321

/-- The unspent output created by the payment: 42.001 units
(4200100000 minor units) to the key's locking condition, height 121. -/
def payUtxoC3 : OutRef × UtxoRecord :=
  (⟨payTxidC3, 0⟩, ⟨4200100000, "lock:" ++ privKeyC3, 121, false⟩)

/-- Node 1 of the test after it mines block 121 confirming the payment:
retention option 2200 (automatic mode), payment output and block 121's
coinbase added.  Node 0 has not applied block 121 and stays at `node0`. -/
def node1 : NodeState where
  chain := bestChain 122
  utxos := minedUtxos 120 ++ [payUtxoC3, coinbaseUtxo 121]
  mode := configRetention 2200
  pruneHeight := 0
  manualEvictionTriggered := false

/-! ## Reachable states of the retention machinery -/

/-- Modelled from the spec: one step of the engine's mutators — block
acceptance (BlockIndex.insert + UtxoSet.apply_block as one logical
transaction, linking to the tip), an operator-requested eviction (manual
mode only), or an automatic eviction; evictions keep `prune_height`
monotone and behind the tip. -/
inductive EngineStep : NodeState → NodeState → Prop
  | applyBlock (st : NodeState) (b : Header) (spent : List OutRef)
      (created : List (OutRef × UtxoRecord))
      (hlink : b.prev = (tipHeader st).hash) :
      EngineStep st
        { st with
          chain := st.chain ++ [b]
          utxos := (st.utxos.filter fun p => !(spent.contains p.1)) ++ created }
  | manualEvict (st : NodeState) (newPh : Nat) (hm : st.mode = .manual)
      (hmono : st.pruneHeight ≤ newPh) (hsafe : newPh ≤ tipHeight st) :
      EngineStep st
        { st with pruneHeight := newPh, manualEvictionTriggered := true }
  | autoEvict (st : NodeState) (t newPh : Nat)
      (hm : st.mode = .automatic t) (hmono : st.pruneHeight ≤ newPh)
      (hsafe : newPh ≤ tipHeight st) :
      EngineStep st { st with pruneHeight := newPh }

/-- A node's state at startup: genesis only, nothing pruned. -/
def initNode (m : RetentionMode) : NodeState where
  chain := [mkHeader 0]
  utxos := []
  mode := m
  pruneHeight := 0
  manualEvictionTriggered := false

/-- The states a node configured with retention mode `m` can reach. -/
def Reachable (m : RetentionMode) (st : NodeState) : Prop :=
  Relation.ReflTransGen EngineStep (initNode m) st

/-- `prune_height` as the chain summary reports it (a JSON integer). -/
def reportedPruneHeight (st : NodeState) : Int := (st.pruneHeight : Int)

/-! ## Helper lemmas -/

theorem getblockchaininfo_pruneheight (st : NodeState) :
    (getblockchaininfo st).pruneheight =
      match st.mode with
      | .disabled => none
      | _ => some st.pruneHeight := rfl

theorem getblockchaininfo_automatic_pruning (st : NodeState) :
    (getblockchaininfo st).automatic_pruning =
      match st.mode with
      | .disabled => none
      | .manual => some false
      | .automatic _ => some true := rfl

theorem getblockchaininfo_prune_target_size (st : NodeState) :
    (getblockchaininfo st).prune_target_size =
      match st.mode with
      | .automatic t => some t
      | _ => none := rfl

theorem getblockchaininfo_pruned (st : NodeState) :
    (getblockchaininfo st).pruned =
      match st.mode with
      | .disabled => false
      | _ => true := rfl

theorem initNode_mode (m : RetentionMode) : (initNode m).mode = m := rfl

/-- The inductive invariant the retention machinery maintains along every
engine step: the configured mode never changes, and `prune_height` stays 0
while eviction is impossible (disabled mode) or not yet requested (manual
mode before any operator eviction). -/
def PruneInv (m : RetentionMode) (st : NodeState) : Prop :=
  st.mode = m ∧
    ((st.mode = .disabled ∨
        (st.mode = .manual ∧ st.manualEvictionTriggered = false)) →
      st.pruneHeight = 0)

theorem engineStep_preserves_pruneInv {m : RetentionMode}
    {st st' : NodeState} (h : EngineStep st st') (hi : PruneInv m st) :
    PruneInv m st' := by
  cases h with
  | applyBlock b spent created hlink => exact hi
  | manualEvict newPh hm hmono hsafe =>
    refine ⟨hi.1, fun hc => ?_⟩
    rcases hc with hd | ⟨_, he⟩
    · exact absurd (hm.symm.trans hd) (by simp)
    · exact absurd he (by simp)
  | autoEvict t newPh hm hmono hsafe =>
    refine ⟨hi.1, fun hc => ?_⟩
    rcases hc with hd | ⟨hmn, _⟩
    · exact absurd (hm.symm.trans hd) (by simp)
    · exact absurd (hm.symm.trans hmn) (by simp)

theorem reachable_pruneInv {m : RetentionMode} {st : NodeState}
    (h : Reachable m st) : PruneInv m st := by
  induction h with
  | refl => exact ⟨rfl, fun _ => rfl⟩
  | tail _ hstep ih => exact engineStep_preserves_pruneInv hstep ih

/-! ## Claim theorems -/

/-- C1: for the chain state reached after applying 120 blocks each minting
500000 units to a fresh address with no intervening spends, the UTXO-set
summary reports `transactions = 120`, `txouts = 120`, a `total_amount`
that is the exact integer sum `120 · 500000` of coins in minor units and
presents as exactly `60000000.00000000` under the fixed 8-decimal
formatting (no floating-point drift), and `height = 120`. -/
theorem utxo_summary_after_120_minted_blocks :
    (gettxoutsetinfo node0).transactions = 120 ∧
    (gettxoutsetinfo node0).txouts = 120 ∧
    (gettxoutsetinfo node0).total_amount = 120 * blockSubsidyMinor ∧
    (gettxoutsetinfo node0).total_amount = 6000000000000000 ∧
    formatFixed8 (gettxoutsetinfo node0).total_amount =
      "60000000.00000000" ∧
    (gettxoutsetinfo node0).height = 120 := by
  refine ⟨by decide, by decide, by decide, by decide, ?_, by decide⟩
  decide

/-- C10: for the chain state reached after the 120 mined blocks, the
UTXO-set summary additionally reports `bytes_serialized` exactly 8520,
and both `bestblock` and `hash_serialized` are strings of exactly 64
characters. -/
theorem utxo_summary_serialized_size_and_hashes :
    (gettxoutsetinfo node0).bytes_serialized = 8520 ∧
    (gettxoutsetinfo node0).bestblock.length = 64 ∧
    (gettxoutsetinfo node0).hash_serialized.length = 64 := by
  refine ⟨by decide, by decide, by decide⟩

/-- C3: the private key `privKeyC3`, whose address receives the single
42.001-unit payment `payTxidC3` confirmed at height 121, is resolved by
`getutxoforkey` on node 1 (which applied block 121) to exactly that
amount (4200100000 minor units, presenting as 42.00100000), height 121
and the originating transaction id; on node 0, which has not applied
block 121, the same call fails with `NoMatchingUtxo` and no other
error. -/
theorem utxo_by_key_payment_visibility :
    getutxoforkey node1 privKeyC3 = .ok ⟨4200100000, 121, payTxidC3⟩ ∧
    formatFixed8 4200100000 = "42.00100000" ∧
    getutxoforkey node0 privKeyC3 = .error .noMatchingUtxo := by
  refine ⟨by decide, by decide, by decide⟩

/-- C9: the boundary input pair (checklevel 4, block count 0) is valid
for `verifychain`: on node 0's unmodified, fully retained chain the call
completes without error. -/
theorem verifychain_boundary_accepts_level4_zero :
    verifychain node0 4 0 = .ok true := by decide

/-- C7: every input that cannot be decoded as a private key makes
`getutxoforkey` fail with `InvalidKeyEncoding` whose message contains
"Invalid private key encoding", an error distinct from the
`NoMatchingUtxo` outcome for well-formed keys with no unspent output. -/
theorem utxo_by_key_invalid_encoding :
    ∀ (st : NodeState) (s : String), decodePrivKey s = none →
      getutxoforkey st s =
        .error (.invalidKeyEncoding "Invalid private key encoding") ∧
      strContains "Invalid private key encoding"
        "Invalid private key encoding" = true ∧
      (.error (.invalidKeyEncoding "Invalid private key encoding") :
          Except RpcError UtxoForKeyResult) ≠ .error .noMatchingUtxo := by
  intro st s h
  refine ⟨?_, by decide, by decide⟩
  unfold getutxoforkey
  rw [h]

/-- Witness for C7: the empty string cannot be decoded as a private key,
and `getutxoforkey` rejects it on node 0 with `InvalidKeyEncoding`. -/
theorem utxo_by_key_invalid_encoding_witness :
    decodePrivKey "" = none ∧
    getutxoforkey node0 "" =
      .error (.invalidKeyEncoding "Invalid private key encoding") :=
  ⟨by decide, (utxo_by_key_invalid_encoding node0 "" (by decide)).1⟩

/-- C2 counterexample: a call with a negative block count but an
out-of-range checklevel — `verifychain 5 (-1)` — fails with the
checklevel `InvalidArgument` message, which does not contain
"nblocks must be >= 0"; so it is not the case that every call with a
negative block count fails with a message naming the block-count
parameter. -/
theorem verifychain_both_invalid_counterexample :
    verifychain node0 5 (-1) =
      .error (.invalidArgument "Error: checklevel must be >= 0 and <= 4") ∧
    strContains "Error: checklevel must be >= 0 and <= 4"
      "nblocks must be >= 0" = false := by
  refine ⟨by decide, by decide⟩

/-- C2 (amended): every call with checklevel outside 0..4 fails with an
`InvalidArgument` error whose message contains
"checklevel must be >= 0 and <= 4"; and every call with an in-range
checklevel and a negative block count fails with an `InvalidArgument`
error whose message contains "nblocks must be >= 0" — when both
parameters are invalid, the checklevel error takes precedence. -/
theorem verifychain_argument_validation :
    (∀ (st : NodeState) (cl bc : Int), cl < 0 ∨ 4 < cl →
      verifychain st cl bc =
        .error (.invalidArgument "Error: checklevel must be >= 0 and <= 4") ∧
      strContains "Error: checklevel must be >= 0 and <= 4"
        "checklevel must be >= 0 and <= 4" = true) ∧
    (∀ (st : NodeState) (cl bc : Int), 0 ≤ cl → cl ≤ 4 → bc < 0 →
      verifychain st cl bc =
        .error (.invalidArgument "Error: nblocks must be >= 0") ∧
      strContains "Error: nblocks must be >= 0"
        "nblocks must be >= 0" = true) := by
  constructor
  · intro st cl bc h
    refine ⟨?_, by decide⟩
    unfold verifychain
    rw [if_pos h]
  · intro st cl bc h0 h4 hb
    refine ⟨?_, by decide⟩
    unfold verifychain
    rw [if_neg (by omega), if_pos hb]

/-- Witness for C2: the concrete rejections the test exercises —
checklevel −1 and 5, and block counts −100 and −1000. -/
theorem verifychain_argument_validation_witness :
    (verifychain node0 (-1) 0 =
        .error (.invalidArgument "Error: checklevel must be >= 0 and <= 4") ∧
      strContains "Error: checklevel must be >= 0 and <= 4"
        "checklevel must be >= 0 and <= 4" = true) ∧
    (verifychain node0 5 0 =
        .error (.invalidArgument "Error: checklevel must be >= 0 and <= 4") ∧
      strContains "Error: checklevel must be >= 0 and <= 4"
        "checklevel must be >= 0 and <= 4" = true) ∧
    (verifychain node0 0 (-100) =
        .error (.invalidArgument "Error: nblocks must be >= 0") ∧
      strContains "Error: nblocks must be >= 0"
        "nblocks must be >= 0" = true) ∧
    (verifychain node0 0 (-1000) =
        .error (.invalidArgument "Error: nblocks must be >= 0") ∧
      strContains "Error: nblocks must be >= 0"
        "nblocks must be >= 0" = true) :=
  ⟨verifychain_argument_validation.1 node0 (-1) 0 (Or.inl (by decide)),
   verifychain_argument_validation.1 node0 5 0 (Or.inr (by decide)),
   verifychain_argument_validation.2 node0 0 (-100)
     (by decide) (by decide) (by decide),
   verifychain_argument_validation.2 node0 0 (-1000)
     (by decide) (by decide) (by decide)⟩

/-- C4: for every retention configuration, the chain summary contains
`pruneheight` and `automatic_pruning` exactly when retention mode is not
disabled, and additionally `prune_target_size` exactly when the mode is
automatic; `automatic_pruning` is `false` in manual mode and `true` in
automatic mode, and `pruned` is `true` in both enabled modes. -/
theorem chain_summary_pruning_fields :
    ∀ st : NodeState,
      ((getblockchaininfo st).pruneheight.isSome ↔ st.mode ≠ .disabled) ∧
      ((getblockchaininfo st).automatic_pruning.isSome ↔
        st.mode ≠ .disabled) ∧
      ((getblockchaininfo st).prune_target_size.isSome ↔
        ∃ t, st.mode = .automatic t) ∧
      (st.mode = .manual →
        (getblockchaininfo st).automatic_pruning = some false) ∧
      (∀ t, st.mode = .automatic t →
        (getblockchaininfo st).automatic_pruning = some true) ∧
      (st.mode ≠ .disabled → (getblockchaininfo st).pruned = true) := by
  intro st
  rw [getblockchaininfo_pruneheight, getblockchaininfo_automatic_pruning,
    getblockchaininfo_prune_target_size, getblockchaininfo_pruned]
  rcases hm : st.mode with _ | _ | t <;> simp [hm]

/-- Witness for C4: the two configurations the test starts — node 0 in
manual mode reports `automatic_pruning = false`, node 1 in automatic mode
reports `automatic_pruning = true`, and both report `pruned = true`. -/
theorem chain_summary_pruning_fields_witness :
    (getblockchaininfo node0).automatic_pruning = some false ∧
    (getblockchaininfo node1).automatic_pruning = some true ∧
    (getblockchaininfo node0).pruned = true ∧
    (getblockchaininfo node1).pruned = true :=
  ⟨(chain_summary_pruning_fields node0).2.2.2.1 (by decide),
   (chain_summary_pruning_fields node1).2.2.2.2.1 2306867200 (by decide),
   (chain_summary_pruning_fields node0).2.2.2.2.2 (by decide),
   (chain_summary_pruning_fields node1).2.2.2.2.2 (by decide)⟩

/-- C5: the header operation fails with `UnknownBlock` for every hash not
present in BlockIndex; and for the best-chain tip of node 0's 120-block
chain, `getblockheader` on the best hash returns
`confirmations = tip.height − header.height + 1 = 1`, `height = 120`, a
previous hash equal to the block hash at height 119, and a chainwork
field that is a non-empty hexadecimal string. -/
theorem getblockheader_unknown_and_best :
    (∀ q : String, (node0.chain.find? fun hd => hd.hash == q) = none →
      getblockheader node0 q = .error .unknownBlock) ∧
    getbestblockhash node0 = hex64 121 ∧
    (getblockheader node0 (hex64 121)).toOption.map
        (fun i => (i.confirmations, i.height, i.previousblockhash)) =
      some ((tipHeight node0 : Int) - 120 + 1, 120, hex64 120) ∧
    (tipHeight node0 : Int) - 120 + 1 = 1 ∧
    getblockhash node0 119 = some (hex64 120) ∧
    (getblockheader node0 (hex64 121)).toOption.map
        (fun i => i.chainwork.data.all isHexChar && !i.chainwork.isEmpty) =
      some true := by
  refine ⟨?_, by decide, by decide, by decide, by decide, by decide⟩
  intro q h
  unfold getblockheader
  rw [h]

/-- Witness for C5: the string "nonsense" names no block in node 0's
index, and the header query rejects it with `UnknownBlock`. -/
theorem getblockheader_unknown_and_best_witness :
    (node0.chain.find? fun hd => hd.hash == "nonsense") = none ∧
    getblockheader node0 "nonsense" = .error .unknownBlock :=
  ⟨by decide, getblockheader_unknown_and_best.1 "nonsense" (by decide)⟩

/-- C6: a whole-megabyte retention option `mb ≥ 2` selects automatic mode
with the exact integer byte budget `mb * 1024 * 1024`, and that budget is
what the chain summary reports as the target size. -/
theorem prune_target_exact_megabytes :
    ∀ mb : Nat, 2 ≤ mb →
      configRetention mb = .automatic (mb * 1024 * 1024) ∧
      (getblockchaininfo (initNode (configRetention mb))).prune_target_size =
        some (mb * 1024 * 1024) := by
  intro mb h
  have hc : configRetention mb = .automatic (mb * 1024 * 1024) := by
    unfold configRetention
    rw [if_neg (by omega), if_neg (by omega)]
  refine ⟨hc, ?_⟩
  rw [getblockchaininfo_prune_target_size, initNode_mode, hc]

/-- Witness for C6: the test's configuration of 2200 MB yields exactly
2306867200 bytes. -/
theorem prune_target_exact_megabytes_witness :
    configRetention 2200 = .automatic 2306867200 ∧
    (getblockchaininfo (initNode (configRetention 2200))).prune_target_size =
      some 2306867200 :=
  ⟨(prune_target_exact_megabytes 2200 (by decide)).1.trans (by decide),
   (prune_target_exact_megabytes 2200 (by decide)).2.trans (by decide)⟩

/-- C8: in every reachable state of a node whose retention mode is
disabled, or is manual with no eviction yet triggered by an operator, the
reported `prune_height` equals 0; and in every reachable state of every
retention mode the reported `prune_height` is non-negative. -/
theorem prune_height_zero_until_eviction :
    ∀ (m : RetentionMode) (st : NodeState), Reachable m st →
      ((st.mode = .disabled ∨
          (st.mode = .manual ∧ st.manualEvictionTriggered = false)) →
        reportedPruneHeight st = 0) ∧
      0 ≤ reportedPruneHeight st := by
  intro m st h
  have hi := reachable_pruneInv h
  refine ⟨fun hc => ?_, Int.natCast_nonneg _⟩
  unfold reportedPruneHeight
  rw [hi.2 hc]
  rfl

/-- Witness for C8: the startup state of a disabled-mode node is
reachable and reports `prune_height = 0 ≥ 0`. -/
theorem prune_height_zero_until_eviction_witness :
    reportedPruneHeight (initNode .disabled) = 0 ∧
    0 ≤ reportedPruneHeight (initNode .disabled) :=
  ⟨(prune_height_zero_until_eviction .disabled (initNode .disabled)
      Relation.ReflTransGen.refl).1 (Or.inl rfl),
   (prune_height_zero_until_eviction .disabled (initNode .disabled)
      Relation.ReflTransGen.refl).2⟩
